import Mathlib

set_option maxHeartbeats 1000000

namespace WhisperTranny

/-- Audio samples are modelled as integers; only their count and arrangement
matter to the recorder logic. A chunk is the block of frames delivered by one
invocation of the input-stream callback (mono, so one sample per frame). -/
abbrev Chunk := List Int

/-- State of the `AudioRecorder` class (src/whisper-tranny.py, lines 31-65):
`recording` is the armed flag, `audio_data` is the list of captured chunks. -/
structure AudioRecorder where
  sample_rate : Nat
  recording : Bool
  audio_data : List Chunk
  deriving DecidableEq, Repr

/-- The pure state effect of `AudioRecorder.start` (lines 39-41): reset the
chunk buffer and arm the flag. Both assignments run before the input stream
is constructed and started, so they take effect even when opening the stream
raises a device error. -/
def AudioRecorder.start (r : AudioRecorder) : AudioRecorder :=
  { r with audio_data := [], recording := true }

/-- The capture callback defined inside `AudioRecorder.start` (lines 43-45):
append a copy of the incoming block to `audio_data` when the armed flag is
set, otherwise drop it. -/
def AudioRecorder.callback (r : AudioRecorder) (indata : Chunk) : AudioRecorder :=
  if r.recording then { r with audio_data := r.audio_data ++ [indata] } else r

/-- The `AudioRecorder.stop` method (lines 55-62): disarm the flag, close the
stream (no modelled state), and return the chunks concatenated and flattened
if any were captured, or an empty array otherwise. The chunk list itself is
not modified. Returns the updated recorder together with the returned
sample sequence. -/
def AudioRecorder.stop (r : AudioRecorder) : AudioRecorder × List Int :=
  let r2 : AudioRecorder := { r with recording := false }
  if r2.audio_data.isEmpty then (r2, []) else (r2, r2.audio_data.flatten)

/-- Outcome of the external whisper calls (`whisper.load_model` followed by
`model.transcribe`) as observed by `TranscriptionWorker.run`: either the
text field of a successful result, or the message of the exception raised
during model load or inference. -/
inductive ModelOutcome where
  | ok (text : String)
  | exn (msg : String)
  deriving DecidableEq, Repr

/-- What `TranscriptionWorker.run` emits to the main window: exactly one of
the two Qt signals declared at lines 71-72. -/
inductive Emitted where
  | finished (text : String)
  | errored (msg : String)
  deriving DecidableEq, Repr

/-- The `TranscriptionWorker.run` method (lines 79-89). `whisperAvailable`
is the module-level `WHISPER_AVAILABLE` flag (lines 23-27); `outcome` is the
behaviour of the external model on this worker's audio path and model name.
The whole body is wrapped in try/except, so a raised exception becomes an
`error.emit(str(e))`. The function is total: it always returns exactly one
emitted signal and never propagates an exception. -/
def TranscriptionWorker.run (whisperAvailable : Bool) (outcome : ModelOutcome) : Emitted :=
  if whisperAvailable = false then
    .errored "Whisper nicht installiert!"
  else
    match outcome with
    | .ok text => .finished text
    | .exn msg => .errored msg

/-- Status text shown while transcribing (line 240). The source formats the
duration `len(audio) / sample_rate` as a float with one decimal place; the
rendering is modelled here in tenths of a second with natural division. The
claims do not depend on this text. -/
def transcribingStatus (audioLen sampleRate : Nat) : String :=
  let tenths := 10 * audioLen / sampleRate
  "⏳ Transkribiere... (" ++ toString (tenths / 10) ++ "." ++ toString (tenths % 10)
    ++ "s Audio)"

/-- Observable state of `MainWindow` (lines 92-283) together with the one
piece of the outside world the claims mention: whether the staged temp file
currently exists on disk (`staged_file_exists`). `worker_running` records
that a `TranscriptionWorker` has been started and its outcome has not yet
been delivered back to the window. `clipboard` models the system clipboard
written by `copy_all`. Button style sheets carry no claim-relevant state and
are omitted. -/
structure MainWindow where
  recorder : AudioRecorder
  is_recording : Bool
  temp_audio_path : Option String
  record_btn_text : String
  record_btn_enabled : Bool
  status_text : String
  status_style : String
  progress_visible : Bool
  transcript_text : String
  copy_enabled : Bool
  worker_running : Bool
  staged_file_exists : Bool
  clipboard : String
  deriving DecidableEq, Repr

/-- Window state after `MainWindow.__init__` and `setup_ui` (lines 95-181):
fresh recorder at 16 kHz, not recording, no temp path, record button enabled
with its start label, status "Bereit", progress hidden, empty read-only
transcript, copy disabled. -/
def initWindow : MainWindow :=
  { recorder := { sample_rate := 16000, recording := false, audio_data := [] }
    is_recording := false
    temp_audio_path := none
    record_btn_text := "🎤 Aufnahme starten"
    record_btn_enabled := true
    status_text := "Bereit"
    status_style := ""
    progress_visible := false
    transcript_text := ""
    copy_enabled := false
    worker_running := false
    staged_file_exists := false
    clipboard := "" }

/-- The `MainWindow.start_recording` method (lines 189-209). `deviceOk`
tells whether opening the input stream succeeds. On success the window is
put into its recording presentation; on a device error the exception is
caught at line 208 and only an alert is shown, so every window field is left
as it was — but `recorder.start` has already reset the chunk buffer and
armed the recorder flag before the stream raised. -/
def MainWindow.start_recording (w : MainWindow) (deviceOk : Bool) : MainWindow :=
  if deviceOk then
    { w with
      recorder := w.recorder.start
      is_recording := true
      record_btn_text := "⏹ Aufnahme beenden"
      status_text := "🔴 Aufnahme läuft..."
      status_style := "color: #f44336; font-weight: bold;" }
  else
    { w with recorder := w.recorder.start }

/-- The `MainWindow.stop_recording` method (lines 211-248). `freshPath` is
the path produced by `tempfile.mktemp` at line 236, only consumed on the
non-empty branch. On empty audio the method reports "Keine Audio-Daten
aufgenommen", re-enables the record button and returns; otherwise it stages
the file, shows the transcribing status and progress bar, and starts the
background worker. -/
def MainWindow.stop_recording (w : MainWindow) (freshPath : String) : MainWindow :=
  let rs := w.recorder.stop
  let w2 : MainWindow :=
    { w with
      is_recording := false
      recorder := rs.1
      record_btn_text := "🎤 Aufnahme starten"
      record_btn_enabled := false }
  let audio := rs.2
  if audio.length = 0 then
    { w2 with
      status_text := "Keine Audio-Daten aufgenommen"
      record_btn_enabled := true }
  else
    { w2 with
      temp_audio_path := some freshPath
      staged_file_exists := true
      status_text := transcribingStatus audio.length w2.recorder.sample_rate
      status_style := "color: #2196F3; font-weight: bold;"
      progress_visible := true
      worker_running := true }

/-- The `MainWindow.toggle_recording` slot (lines 183-187): dispatch on the
`is_recording` flag. -/
def MainWindow.toggle_recording (w : MainWindow) (deviceOk : Bool) (freshPath : String) :
    MainWindow :=
  if w.is_recording = false then w.start_recording deviceOk else w.stop_recording freshPath

/-- The temp-file cleanup shared verbatim by both outcome slots (lines
259-261 and 269-270): `if self.temp_audio_path: Path(...).unlink(...)`.
Python truthiness makes the guard fail on `None` and on the empty string;
otherwise the unlink removes the staged file from disk (`missing_ok=True`,
so a missing file is not an error). -/
def unlinkStaged (w : MainWindow) : MainWindow :=
  match w.temp_audio_path with
  | none => w
  | some p => if p = "" then w else { w with staged_file_exists := false }

/-- The `MainWindow.on_transcription_done` slot (lines 250-261): hide the
progress bar, re-enable recording, show the success status, display the
stripped text, enable copy, and unlink the temp file. Delivery of the
signal means the worker's outcome has arrived. -/
def MainWindow.on_transcription_done (w : MainWindow) (text : String) : MainWindow :=
  unlinkStaged
    { w with
      progress_visible := false
      record_btn_enabled := true
      status_text := "✅ Fertig!"
      status_style := "color: #4CAF50; font-weight: bold;"
      transcript_text := text.trim
      copy_enabled := true
      worker_running := false }

/-- The `MainWindow.on_transcription_error` slot (lines 263-270): hide the
progress bar, re-enable recording, show the error status, and unlink the
temp file. The transcript and the copy button are not touched. -/
def MainWindow.on_transcription_error (w : MainWindow) (error : String) : MainWindow :=
  unlinkStaged
    { w with
      progress_visible := false
      record_btn_enabled := true
      status_text := "❌ Fehler: " ++ error
      status_style := "color: #f44336;"
      worker_running := false }

/-- The `MainWindow.copy_all` slot (lines 272-277): when the transcript is
non-empty, put it on the clipboard and report it in the status line. -/
def MainWindow.copy_all (w : MainWindow) : MainWindow :=
  if w.transcript_text = "" then w
  else
    { w with
      clipboard := w.transcript_text
      status_text := "📋 In Zwischenablage kopiert!"
      status_style := "color: #4CAF50;" }

/-- The `MainWindow.clear_transcript` slot (lines 279-283): empty the
display, disable copy, and reset the status line and its style. -/
def MainWindow.clear_transcript (w : MainWindow) : MainWindow :=
  { w with
    transcript_text := ""
    copy_enabled := false
    status_text := "Bereit"
    status_style := "" }

/-- Events driving the window, as the Qt event loop delivers them. A button
click is only delivered for an enabled button; a worker signal is only
delivered while a worker is in flight. `clickRecord` carries the outcome of
opening the device and the fresh temp path that would be used if this click
stops a non-empty recording. `frames` is one invocation of the capture
callback by the audio stream. -/
inductive Ev where
  | clickRecord (deviceOk : Bool) (freshPath : String)
  | frames (chunk : Chunk)
  | finishedSig (text : String)
  | errorSig (msg : String)
  | clickCopy
  | clickClear
  deriving DecidableEq, Repr

/-- One step of the event loop: dispatch an event to the corresponding slot,
dropping clicks on a disabled record button and stray worker signals when no
worker is in flight. -/
def step (w : MainWindow) (e : Ev) : MainWindow :=
  match e with
  | .clickRecord ok p => if w.record_btn_enabled then w.toggle_recording ok p else w
  | .frames c => { w with recorder := w.recorder.callback c }
  | .finishedSig t => if w.worker_running then w.on_transcription_done t else w
  | .errorSig m => if w.worker_running then w.on_transcription_error m else w
  | .clickCopy => w.copy_all
  | .clickClear => w.clear_transcript

/-- Window state reached from launch after a sequence of events. -/
def runEvents (es : List Ev) : MainWindow :=
  es.foldl step initWindow

/-! Helper lemmas: the unlink step touches only the on-disk staged file. -/

@[simp] theorem unlinkStaged_recorder (w : MainWindow) :
    (unlinkStaged w).recorder = w.recorder := by
  unfold unlinkStaged
  cases h : w.temp_audio_path with
  | none => rfl
  | some p => by_cases hp : p = "" <;> simp [hp]

@[simp] theorem unlinkStaged_is_recording (w : MainWindow) :
    (unlinkStaged w).is_recording = w.is_recording := by
  unfold unlinkStaged
  cases h : w.temp_audio_path with
  | none => rfl
  | some p => by_cases hp : p = "" <;> simp [hp]

@[simp] theorem unlinkStaged_temp_audio_path (w : MainWindow) :
    (unlinkStaged w).temp_audio_path = w.temp_audio_path := by
  unfold unlinkStaged
  cases h : w.temp_audio_path with
  | none => simpa using h
  | some p => by_cases hp : p = "" <;> simp [hp, h]

@[simp] theorem unlinkStaged_record_btn_enabled (w : MainWindow) :
    (unlinkStaged w).record_btn_enabled = w.record_btn_enabled := by
  unfold unlinkStaged
  cases h : w.temp_audio_path with
  | none => rfl
  | some p => by_cases hp : p = "" <;> simp [hp]

@[simp] theorem unlinkStaged_status_text (w : MainWindow) :
    (unlinkStaged w).status_text = w.status_text := by
  unfold unlinkStaged
  cases h : w.temp_audio_path with
  | none => rfl
  | some p => by_cases hp : p = "" <;> simp [hp]

@[simp] theorem unlinkStaged_progress_visible (w : MainWindow) :
    (unlinkStaged w).progress_visible = w.progress_visible := by
  unfold unlinkStaged
  cases h : w.temp_audio_path with
  | none => rfl
  | some p => by_cases hp : p = "" <;> simp [hp]

@[simp] theorem unlinkStaged_transcript_text (w : MainWindow) :
    (unlinkStaged w).transcript_text = w.transcript_text := by
  unfold unlinkStaged
  cases h : w.temp_audio_path with
  | none => rfl
  | some p => by_cases hp : p = "" <;> simp [hp]

@[simp] theorem unlinkStaged_copy_enabled (w : MainWindow) :
    (unlinkStaged w).copy_enabled = w.copy_enabled := by
  unfold unlinkStaged
  cases h : w.temp_audio_path with
  | none => rfl
  | some p => by_cases hp : p = "" <;> simp [hp]

@[simp] theorem unlinkStaged_worker_running (w : MainWindow) :
    (unlinkStaged w).worker_running = w.worker_running := by
  unfold unlinkStaged
  cases h : w.temp_audio_path with
  | none => rfl
  | some p => by_cases hp : p = "" <;> simp [hp]

theorem unlinkStaged_removes (w : MainWindow) (p : String)
    (h : w.temp_audio_path = some p) (hp : p ≠ "") :
    (unlinkStaged w).staged_file_exists = false := by
  unfold unlinkStaged
  rw [h]
  simp [hp]

/-- C1: `AudioRecorder.stop` disarms capture and returns the captured
chunks concatenated in their original append order, flattened to a
one-dimensional sample sequence whose length equals the sum of the chunk
lengths; with no captured chunks the flattening is the empty sequence. -/
theorem stop_disarms_and_flattens (r : AudioRecorder) :
    (r.stop).1.recording = false ∧
    (r.stop).2 = r.audio_data.flatten ∧
    (r.stop).2.length = (r.audio_data.map List.length).sum := by
  refine ⟨?_, ?_, ?_⟩ <;>
    · unfold AudioRecorder.stop
      cases h : r.audio_data <;> simp [h, List.length_flatten]

/-- Recorder used as the concrete counterexample input for C9: armed,
holding two captured chunks. -/
def loadedRecorder : AudioRecorder :=
  { sample_rate := 16000, recording := true, audio_data := [[1, 2], [3]] }

/-- C9 counterexample: stopping a recorder that holds captured chunks does
not empty the internal chunk list — `stop` never writes `audio_data`. -/
theorem stop_leaves_buffer_counterexample :
    ¬ ((loadedRecorder.stop).1.audio_data = []) := by
  decide

/-- C9 amended: the capture buffer is not cleared by `stop`; `stop` leaves
the internal chunk list exactly as it was, and the buffer is instead reset
to empty by the next `start` (line 40). -/
theorem stop_preserves_buffer_start_clears (r : AudioRecorder) :
    (r.stop).1.audio_data = r.audio_data ∧ (r.start).audio_data = [] := by
  constructor
  · unfold AudioRecorder.stop
    cases h : r.audio_data <;> simp [h]
  · rfl

/-- C4: `TranscriptionWorker.run` is a total function into the emitted
signal type, so it never raises to its caller. When whisper is available
and the model call succeeds it emits exactly the recognized text on the
finished signal; when whisper is not installed, or the model raises during
load or inference, it emits a human-readable message on the error signal
instead. -/
theorem run_never_raises (avail : Bool) (oc : ModelOutcome) :
    (∀ t, avail = true → oc = .ok t →
      TranscriptionWorker.run avail oc = .finished t) ∧
    (avail = false →
      TranscriptionWorker.run avail oc = .errored "Whisper nicht installiert!") ∧
    (∀ m, avail = true → oc = .exn m →
      TranscriptionWorker.run avail oc = .errored m) := by
  refine ⟨?_, ?_, ?_⟩
  · intro t ha ho
    subst ha; subst ho
    rfl
  · intro ha
    subst ha
    rfl
  · intro m ha ho
    subst ha; subst ho
    rfl

/-- Witness for C4: the three behaviours at concrete inputs. -/
theorem run_never_raises_witness :
    TranscriptionWorker.run true (.ok " hallo welt ") = .finished " hallo welt " ∧
    TranscriptionWorker.run false (.ok "x") = .errored "Whisper nicht installiert!" ∧
    TranscriptionWorker.run true (.exn "CUDA out of memory") =
      .errored "CUDA out of memory" :=
  ⟨(run_never_raises true (.ok " hallo welt ")).1 " hallo welt " rfl rfl,
   (run_never_raises false (.ok "x")).2.1 rfl,
   (run_never_raises true (.exn "CUDA out of memory")).2.2 "CUDA out of memory" rfl rfl⟩

/-- C5: after a successful transcription delivering text `t`, the displayed
transcript equals `t` with leading and trailing whitespace trimmed, the
copy action is enabled, and the progress indicator is hidden. -/
theorem done_updates_display (w : MainWindow) (t : String) :
    (w.on_transcription_done t).transcript_text = t.trim ∧
    (w.on_transcription_done t).copy_enabled = true ∧
    (w.on_transcription_done t).progress_visible = false := by
  unfold MainWindow.on_transcription_done
  simp

/-- C6: after a failing transcription with message `e`, the displayed
status contains `e`, the record control is re-enabled, the progress
indicator is hidden, and both the copy action's enabled state and the
displayed transcript are unchanged from their prior state. -/
theorem error_updates_display (w : MainWindow) (e : String) :
    (∃ pre post, (w.on_transcription_error e).status_text = pre ++ e ++ post) ∧
    (w.on_transcription_error e).record_btn_enabled = true ∧
    (w.on_transcription_error e).progress_visible = false ∧
    (w.on_transcription_error e).copy_enabled = w.copy_enabled ∧
    (w.on_transcription_error e).transcript_text = w.transcript_text := by
  refine ⟨⟨"❌ Fehler: ", "", ?_⟩, ?_, ?_, ?_, ?_⟩ <;>
    · unfold MainWindow.on_transcription_error
      simp

/-- C7: triggering the clear action in any window state empties the
transcript display, disables the copy action, and resets the status line
to "Bereit" with its default style, regardless of the prior state. -/
theorem clear_resets_display (w : MainWindow) :
    (w.clear_transcript).transcript_text = "" ∧
    (w.clear_transcript).copy_enabled = false ∧
    (w.clear_transcript).status_text = "Bereit" ∧
    (w.clear_transcript).status_style = "" :=
  ⟨rfl, rfl, rfl, rfl⟩

/-- When the stopped audio is non-empty, `stop_recording` stages the fresh
temp path, marks the staged file as written, starts the worker, and leaves
the record button disabled. -/
theorem stop_recording_stages (w : MainWindow) (p : String)
    (hne : (w.recorder.stop).2 ≠ []) :
    (w.stop_recording p).temp_audio_path = some p ∧
    (w.stop_recording p).worker_running = true ∧
    (w.stop_recording p).staged_file_exists = true ∧
    (w.stop_recording p).record_btn_enabled = false ∧
    (w.stop_recording p).is_recording = false := by
  have hlen : ¬ ((w.recorder.stop).2.length = 0) := by
    simpa [List.length_eq_zero] using hne
  unfold MainWindow.stop_recording
  simp [hlen]

/-- C2: for every recording cycle that enters transcription (the stopped
audio is non-empty, so a temp file is staged at a `mktemp` path, which is
never the empty string), the staged file no longer exists on disk at the
end of the transcription attempt — on the success branch and on the error
branch alike. -/
theorem staged_file_removed (w : MainWindow) (p t e : String)
    (hp : p ≠ "") (hne : (w.recorder.stop).2 ≠ []) :
    ((w.stop_recording p).on_transcription_done t).staged_file_exists = false ∧
    ((w.stop_recording p).on_transcription_error e).staged_file_exists = false := by
  have hstage := stop_recording_stages w p hne
  constructor
  · unfold MainWindow.on_transcription_done
    exact unlinkStaged_removes _ p hstage.1 hp
  · unfold MainWindow.on_transcription_error
    exact unlinkStaged_removes _ p hstage.1 hp

/-- Concrete window that has recorded two chunks and is still recording,
used by the C2 witness. -/
def recordedWindow : MainWindow :=
  runEvents [.clickRecord true "/tmp/unused.wav", .frames [1, 2], .frames [3]]

/-- Witness for C2 at a concrete recorded window and temp path. -/
theorem staged_file_removed_witness :
    "/tmp/rec.wav" ≠ "" ∧ (recordedWindow.recorder.stop).2 ≠ [] ∧
    ((recordedWindow.stop_recording "/tmp/rec.wav").on_transcription_done
        "hallo welt").staged_file_exists = false ∧
    ((recordedWindow.stop_recording "/tmp/rec.wav").on_transcription_error
        "boom").staged_file_exists = false :=
  ⟨by decide, by decide,
   (staged_file_removed recordedWindow "/tmp/rec.wav" "hallo welt" "boom"
     (by decide) (by decide)).1,
   (staged_file_removed recordedWindow "/tmp/rec.wav" "hallo welt" "boom"
     (by decide) (by decide)).2⟩

/-- C3: if stopping yields an empty sample sequence, `stop_recording`
leaves the temp path, the on-disk staged-file state, the worker and the
progress bar untouched (nothing is staged, no worker starts), sets the
status to the no-audio message, and immediately re-enables the record
control, with recording off — the shell is back in Idle. -/
theorem empty_stop_returns_to_idle (w : MainWindow) (p : String)
    (he : (w.recorder.stop).2 = []) :
    (w.stop_recording p).temp_audio_path = w.temp_audio_path ∧
    (w.stop_recording p).staged_file_exists = w.staged_file_exists ∧
    (w.stop_recording p).worker_running = w.worker_running ∧
    (w.stop_recording p).progress_visible = w.progress_visible ∧
    (w.stop_recording p).status_text = "Keine Audio-Daten aufgenommen" ∧
    (w.stop_recording p).record_btn_enabled = true ∧
    (w.stop_recording p).is_recording = false := by
  unfold MainWindow.stop_recording
  simp [he]

/-- Witness for C3: stopping the freshly launched window (no frames ever
delivered) takes the no-audio branch. -/
theorem empty_stop_returns_to_idle_witness :
    (initWindow.recorder.stop).2 = [] ∧
    (initWindow.stop_recording "/tmp/rec.wav").status_text =
      "Keine Audio-Daten aufgenommen" ∧
    (initWindow.stop_recording "/tmp/rec.wav").record_btn_enabled = true ∧
    (initWindow.stop_recording "/tmp/rec.wav").worker_running = false :=
  ⟨by decide,
   (empty_stop_returns_to_idle initWindow "/tmp/rec.wav" (by decide)).2.2.2.2.1,
   (empty_stop_returns_to_idle initWindow "/tmp/rec.wav" (by decide)).2.2.2.2.2.1,
   (empty_stop_returns_to_idle initWindow "/tmp/rec.wav" (by decide)).2.2.1⟩

/-- C10: when opening the input stream raises a device error, the exception
handler at line 208 only shows an alert, so the window state is untouched:
`is_recording` stays false, the record button keeps its label and enabled
state, and the status line and its style are not modified (in particular it
is not set to the recording-active message). -/
theorem device_error_leaves_window (w : MainWindow) (h : w.is_recording = false) :
    (w.start_recording false).is_recording = false ∧
    (w.start_recording false).record_btn_text = w.record_btn_text ∧
    (w.start_recording false).record_btn_enabled = w.record_btn_enabled ∧
    (w.start_recording false).status_text = w.status_text ∧
    (w.start_recording false).status_style = w.status_style := by
  unfold MainWindow.start_recording
  simp [h]

/-- Invariant behind the single-worker discipline: whenever a transcription
worker is in flight, the record button is disabled and no recording is
armed. -/
def workerExclusion (w : MainWindow) : Prop :=
  w.worker_running = true → w.record_btn_enabled = false ∧ w.is_recording = false

/-- Every event-loop step preserves the single-worker discipline. -/
theorem step_preserves_exclusion (w : MainWindow) (e : Ev)
    (h : workerExclusion w) : workerExclusion (step w e) := by
  unfold workerExclusion at h ⊢
  cases e with
  | clickRecord ok p =>
      by_cases hen : w.record_btn_enabled = true
      · have hwr : w.worker_running = false := by
          cases hw : w.worker_running
          · rfl
          · exact absurd (h hw).1 (by simp [hen])
        by_cases hrec : w.is_recording = false
        · cases ok <;>
            simp [step, MainWindow.toggle_recording, MainWindow.start_recording,
              hen, hrec, hwr]
        · by_cases hlen : ((w.recorder.stop).2).length = 0 <;>
            simp [step, MainWindow.toggle_recording, MainWindow.stop_recording,
              hen, hrec, hwr, hlen]
      · simpa [step, hen] using h
  | frames c =>
      simpa [step] using h
  | finishedSig t =>
      by_cases hw : w.worker_running = true
      · simp [step, MainWindow.on_transcription_done, hw]
      · simp [step, hw]
  | errorSig m =>
      by_cases hw : w.worker_running = true
      · simp [step, MainWindow.on_transcription_error, hw]
      · simp [step, hw]
  | clickCopy =>
      by_cases ht : w.transcript_text = "" <;>
        · simp [step, MainWindow.copy_all, ht]
          exact h
  | clickClear =>
      simpa [step, MainWindow.clear_transcript] using h

/-- The single-worker discipline holds along any event sequence started
from any state that satisfies it. -/
theorem foldl_preserves_exclusion (es : List Ev) :
    ∀ w : MainWindow, workerExclusion w → workerExclusion (es.foldl step w) := by
  induction es with
  | nil => intro w h; exact h
  | cons e es ih => intro w h; exact ih (step w e) (step_preserves_exclusion w e h)

/-- C8: at most one transcription worker runs at a time — in every window
state reachable from launch, whenever a worker's outcome has not yet been
delivered the record control is disabled and no recording is armed, so a
new recording (hence a second worker) can never be started while a
transcription is in flight. -/
theorem worker_excludes_rearming (es : List Ev)
    (h : (runEvents es).worker_running = true) :
    (runEvents es).record_btn_enabled = false ∧
    (runEvents es).is_recording = false :=
  foldl_preserves_exclusion es initWindow (fun h0 => absurd h0 (by decide)) h

/-- Event sequence putting a worker in flight: start recording, capture one
chunk, stop. Used by the C8 witness. -/
def inFlightEvents : List Ev :=
  [.clickRecord true "/tmp/a.wav", .frames [1], .clickRecord true "/tmp/b.wav"]

/-- Witness for C8: after a non-empty recording stops, the worker is in
flight and the record control is disabled. -/
theorem worker_excludes_rearming_witness :
    (runEvents inFlightEvents).worker_running = true ∧
    (runEvents inFlightEvents).record_btn_enabled = false ∧
    (runEvents inFlightEvents).is_recording = false :=
  ⟨by decide, (worker_excludes_rearming inFlightEvents (by decide)).1,
   (worker_excludes_rearming inFlightEvents (by decide)).2⟩

/-- Witness for C10 at the freshly launched window. -/
theorem device_error_leaves_window_witness :
    initWindow.is_recording = false ∧
    (initWindow.start_recording false).is_recording = false ∧
    (initWindow.start_recording false).record_btn_text = "🎤 Aufnahme starten" ∧
    (initWindow.start_recording false).record_btn_enabled = true ∧
    (initWindow.start_recording false).status_text = "Bereit" :=
  ⟨by decide,
   (device_error_leaves_window initWindow (by decide)).1,
   (device_error_leaves_window initWindow (by decide)).2.1,
   (device_error_leaves_window initWindow (by decide)).2.2.1,
   (device_error_leaves_window initWindow (by decide)).2.2.2.1⟩

end WhisperTranny
